import Mathlib

/-
Formal model of the WhatsApp/browser call-bridge server (src/server.js).

The server is embedded shallowly:
* SDP blobs are modelled as lists of characters; the JavaScript string
  operations used by the server (String.prototype.includes,
  String.prototype.replace with a string pattern, and the one regex
  replacement that appends a line after every a=fingerprint: line) are
  modelled by executable functions on List Char.  SDP bodies are treated
  as CRLF-separated lines, which is the line structure the regex in the
  source relies on (the dot in the pattern stops at carriage return or
  newline).
* The mutable module-level session variables of server.js (browserPc,
  whatsappPc, browserOfferSdp, whatsappOfferSdp, browserSocket,
  currentCallId, callInProgress) are collected into one state record;
  the peer-connection handles are abstracted to a Boolean recording
  whether the handle has been created and not closed.
* Each socket / webhook handler is a function from the state to a new
  state paired with the list of externally visible actions it performs
  (socket emissions, WhatsApp API calls, error logs).  Results of
  external calls (engine failures, pre_accept / accept outcomes, the
  permission probe) are passed in as parameters, so every handler is a
  total executable function.
-/

namespace WaBridge

/-! ## Character-list string primitives (JavaScript string operations) -/

/-- Boolean test that the pattern (second argument) is a prefix of the
string (first argument). -/
def startsWith : List Char → List Char → Bool
  | _, [] => true
  | [], _ :: _ => false
  | c :: s, p :: ps => c == p && startsWith s ps

/-- JavaScript String.prototype.includes: the pattern occurs somewhere in
the string. -/
def containsSub : List Char → List Char → Bool
  | [], pat => startsWith [] pat
  | c :: rest, pat => startsWith (c :: rest) pat || containsSub rest pat

/-- JavaScript String.prototype.replace with a string pattern: only the
first occurrence of the pattern is replaced. -/
def replaceFirst : List Char → List Char → List Char → List Char
  | [], _, _ => []
  | c :: rest, pat, repl =>
    if startsWith (c :: rest) pat = true then repl ++ List.drop pat.length (c :: rest)
    else c :: replaceFirst rest pat repl

/-- The CRLF line separator used by SDP bodies. -/
def CRLF : List Char := ['\r', '\n']

/-- Split an SDP body into its CRLF-separated lines. -/
def splitCRLF : List Char → List (List Char)
  | [] => [[]]
  | '\r' :: '\n' :: rest => [] :: splitCRLF rest
  | c :: rest =>
    match splitCRLF rest with
    | [] => [[c]]
    | l :: ls => (c :: l) :: ls

/-- Rejoin CRLF-separated lines into one SDP body. -/
def joinCRLF : List (List Char) → List Char
  | [] => []
  | [l] => l
  | l :: ls => l ++ CRLF ++ joinCRLF ls

theorem startsWith_self (a : List Char) : startsWith a a = true := by
  induction a with
  | nil => simp [startsWith]
  | cons c t ih => simp [startsWith, ih]

theorem startsWith_append_of (s b pat : List Char) (h : startsWith s pat = true) :
    startsWith (s ++ b) pat = true := by
  induction pat generalizing s with
  | nil => simp [startsWith]
  | cons p ps ih =>
    cases s with
    | nil => simp [startsWith] at h
    | cons c t =>
      simp only [startsWith, Bool.and_eq_true, beq_iff_eq] at h
      simp only [List.cons_append, startsWith, Bool.and_eq_true, beq_iff_eq]
      exact ⟨h.1, ih t h.2⟩

theorem containsSub_of_startsWith (s pat : List Char) (h : startsWith s pat = true) :
    containsSub s pat = true := by
  cases s with
  | nil => simpa [containsSub] using h
  | cons c rest => simp [containsSub, h]

theorem containsSub_cons (c : Char) (rest pat : List Char)
    (h : containsSub rest pat = true) : containsSub (c :: rest) pat = true := by
  simp [containsSub, h]

theorem containsSub_self (a : List Char) : containsSub a a = true :=
  containsSub_of_startsWith a a (startsWith_self a)

theorem containsSub_append_left (a b pat : List Char) (h : containsSub a pat = true) :
    containsSub (a ++ b) pat = true := by
  induction a with
  | nil =>
    cases pat with
    | nil => exact containsSub_of_startsWith b [] (by cases b <;> simp [startsWith])
    | cons p ps => simp [containsSub, startsWith] at h
  | cons c t ih =>
    simp only [containsSub, Bool.or_eq_true] at h
    rcases h with h | h
    · exact containsSub_of_startsWith _ _ (startsWith_append_of (c :: t) b pat h)
    · exact containsSub_cons c _ pat (ih h)

theorem containsSub_append_right (a b pat : List Char) (h : containsSub b pat = true) :
    containsSub (a ++ b) pat = true := by
  induction a with
  | nil => simpa using h
  | cons c t ih => exact containsSub_cons c _ pat ih

theorem replaceFirst_contains (s pat repl q : List Char) (hpat : pat ≠ [])
    (hs : containsSub s pat = true) (hq : containsSub repl q = true) :
    containsSub (replaceFirst s pat repl) q = true := by
  induction s with
  | nil =>
    cases pat with
    | nil => exact absurd rfl hpat
    | cons p ps => simp [containsSub, startsWith] at hs
  | cons c t ih =>
    by_cases hsw : startsWith (c :: t) pat = true
    · simp only [replaceFirst, if_pos hsw]
      exact containsSub_append_left repl _ q hq
    · have hs' : containsSub t pat = true := by
        simp only [containsSub, Bool.or_eq_true] at hs
        rcases hs with h | h
        · exact absurd h hsw
        · exact h
      simp only [replaceFirst, if_neg hsw]
      exact containsSub_cons c _ q (ih hs')

theorem joinCRLF_cons₂ (l l₂ : List Char) (ls : List (List Char)) :
    joinCRLF (l :: l₂ :: ls) = l ++ CRLF ++ joinCRLF (l₂ :: ls) := rfl

theorem containsSub_joinCRLF (L : List (List Char)) (x q : List Char)
    (hx : x ∈ L) (hq : containsSub x q = true) :
    containsSub (joinCRLF L) q = true := by
  induction L with
  | nil => simp at hx
  | cons l ls ih =>
    cases ls with
    | nil =>
      have : x = l := by simpa using hx
      subst this
      simpa [joinCRLF] using hq
    | cons l₂ ls₂ =>
      rcases List.mem_cons.mp hx with h | h
      · subst h
        rw [joinCRLF_cons₂, List.append_assoc]
        exact containsSub_append_left x _ q hq
      · rw [joinCRLF_cons₂, List.append_assoc]
        exact containsSub_append_right l _ q
          (containsSub_append_right CRLF _ q (ih h))

/-! ## SDP normalization (server.js lines 674-691 and 749-755) -/

def fpPat : List Char := "a=fingerprint:".toList

def actpassAttr : List Char := "a=setup:actpass".toList

def activeAttr : List Char := "a=setup:active".toList

def trickleAttr : List Char := "a=ice-options:trickle".toList

def bundlePat : List Char := "a=group:BUNDLE 0".toList

/-- server.js lines 674-686: if the WhatsApp offer does not already
include a=setup:actpass, the regex replace appends the attribute as a new
line after every a=fingerprint: line; otherwise the offer is unchanged. -/
def ensureActpass (sdp : List Char) : List Char :=
  if containsSub sdp actpassAttr = true then sdp
  else
    joinCRLF ((splitCRLF sdp).map
      (fun line =>
        if containsSub line fpPat = true then line ++ CRLF ++ actpassAttr else line))

/-- server.js lines 749-755: the outgoing WhatsApp answer has its first
a=setup:actpass occurrence replaced by a=setup:active, and, when the
result does not already advertise a=ice-options:trickle, that attribute
is inserted after the first occurrence of the line a=group:BUNDLE 0. -/
def formatWaAnswerSdp (sdp : List Char) : List Char :=
  let s1 := replaceFirst sdp actpassAttr activeAttr
  if containsSub s1 trickleAttr = true then s1
  else replaceFirst s1 bundlePat (bundlePat ++ CRLF ++ trickleAttr)

/-- Claim C5 (counterexample): the provider-offer normalization does not
guarantee the a=setup:actpass attribute for every input.  On the input
body consisting of the single line v=0 (no fingerprint line), the
normalization leaves the input unchanged and the output does not contain
a=setup:actpass, refuting the claim as stated. -/
theorem ensureActpass_no_fingerprint_counterexample :
    ensureActpass ("v=0".toList) = "v=0".toList ∧
      containsSub (ensureActpass ("v=0".toList)) actpassAttr = false := by
  constructor <;> rfl

/-- Claim C5 (amended): if the provider offer already contains
a=setup:actpass it is passed through unchanged, and whenever some line of
the offer carries an a=fingerprint: attribute the normalized output is
guaranteed to contain a=setup:actpass; an offer with no fingerprint line
is passed through without the attribute being inserted. -/
theorem ensureActpass_spec (sdp : List Char) :
    (containsSub sdp actpassAttr = true → ensureActpass sdp = sdp) ∧
      ((splitCRLF sdp).any (fun line => containsSub line fpPat) = true →
        containsSub (ensureActpass sdp) actpassAttr = true) := by
  constructor
  · intro h
    simp [ensureActpass, h]
  · intro hany
    by_cases hc : containsSub sdp actpassAttr = true
    · simp [ensureActpass, hc]
    · obtain ⟨line, hmem, hline⟩ := List.any_eq_true.mp hany
      simp only [ensureActpass, hc, if_false]
      refine containsSub_joinCRLF _ (line ++ CRLF ++ actpassAttr) actpassAttr ?_ ?_
      · have : (fun l => if containsSub l fpPat = true then l ++ CRLF ++ actpassAttr else l) line
            = line ++ CRLF ++ actpassAttr := by simp [hline]
        exact this ▸ List.mem_map_of_mem _ hmem
      · rw [List.append_assoc]
        exact containsSub_append_right line _ actpassAttr
          (containsSub_append_right CRLF _ actpassAttr (containsSub_self actpassAttr))

/-- Claim C5 (witness): a concrete offer consisting of one fingerprint
line satisfies the hypothesis of the amended theorem, and the normalized
output contains a=setup:actpass. -/
theorem ensureActpass_spec_witness :
    (splitCRLF ("a=fingerprint:AB".toList)).any (fun line => containsSub line fpPat) = true ∧
      containsSub (ensureActpass ("a=fingerprint:AB".toList)) actpassAttr = true :=
  ⟨by decide, (ensureActpass_spec ("a=fingerprint:AB".toList)).2 (by decide)⟩

/-- Claim C6 (counterexample): the outgoing-answer formatting does not
guarantee the a=ice-options:trickle attribute for every answer.  On the
answer body consisting of the single line v=0 (no a=group:BUNDLE 0
marker), the formatted output does not contain a=ice-options:trickle,
refuting the claim as stated. -/
theorem formatWaAnswerSdp_no_bundle_counterexample :
    containsSub (formatWaAnswerSdp ("v=0".toList)) trickleAttr = false := by
  rfl

/-- Claim C6 (amended): the role-replacement step substitutes
a=setup:active for the first occurrence of a=setup:actpass whenever the
answer contains one, and the formatted output is guaranteed to contain
a=ice-options:trickle only when the role-replaced answer already contains
it or contains the marker line a=group:BUNDLE 0 after which it is
inserted; an answer lacking both is sent without the trickle attribute. -/
theorem formatWaAnswerSdp_spec (sdp : List Char) :
    (containsSub sdp actpassAttr = true →
      containsSub (replaceFirst sdp actpassAttr activeAttr) activeAttr = true) ∧
      (containsSub (replaceFirst sdp actpassAttr activeAttr) bundlePat = true →
        containsSub (formatWaAnswerSdp sdp) trickleAttr = true) := by
  constructor
  · intro h
    exact replaceFirst_contains sdp actpassAttr activeAttr activeAttr (by decide) h
      (containsSub_self activeAttr)
  · intro hb
    by_cases ht : containsSub (replaceFirst sdp actpassAttr activeAttr) trickleAttr = true
    · simp [formatWaAnswerSdp, ht]
    · simp only [formatWaAnswerSdp, ht, if_false]
      refine replaceFirst_contains _ bundlePat _ trickleAttr (by decide) hb ?_
      rw [List.append_assoc]
      exact containsSub_append_right bundlePat _ trickleAttr
        (containsSub_append_right CRLF _ trickleAttr (containsSub_self trickleAttr))

/-- Claim C6 (witness): on a concrete answer containing both the actpass
attribute and the BUNDLE marker, both parts of the amended theorem apply:
the role is replaced by a=setup:active and the output advertises
a=ice-options:trickle. -/
theorem formatWaAnswerSdp_spec_witness :
    containsSub ("a=setup:actpass\r\na=group:BUNDLE 0".toList) actpassAttr = true ∧
      containsSub (replaceFirst ("a=setup:actpass\r\na=group:BUNDLE 0".toList)
        actpassAttr activeAttr) activeAttr = true ∧
      containsSub (replaceFirst ("a=setup:actpass\r\na=group:BUNDLE 0".toList)
        actpassAttr activeAttr) bundlePat = true ∧
      containsSub (formatWaAnswerSdp ("a=setup:actpass\r\na=group:BUNDLE 0".toList))
        trickleAttr = true :=
  ⟨by decide,
   (formatWaAnswerSdp_spec ("a=setup:actpass\r\na=group:BUNDLE 0".toList)).1 (by decide),
   by decide,
   (formatWaAnswerSdp_spec ("a=setup:actpass\r\na=group:BUNDLE 0".toList)).2 (by decide)⟩

/-! ## Session state and externally visible actions (server.js lines 32-41) -/

/-- The module-level mutable call-session variables of server.js.
The two peer-connection handles browserPc and whatsappPc are abstracted
to Booleans recording that the handle has been created and not closed;
the media-stream variables carry no control flow and are omitted.
Nullable strings use Option with JavaScript truthiness: both null and
the empty string are falsy. -/
structure Srv where
  browserPcOpen : Bool
  whatsappPcOpen : Bool
  browserOfferSdp : Option String
  whatsappOfferSdp : Option String
  browserSocket : Option Nat
  currentCallId : Option String
  callInProgress : Bool
deriving DecidableEq

/-- JavaScript truthiness of a nullable string: null and the empty string
are falsy, every other string is truthy. -/
def truthyOpt : Option String → Bool
  | none => false
  | some s => if s = "" then false else true

theorem truthyOpt_none : truthyOpt none = false := rfl

/-- Externally visible effects of a handler: an emission to the stored
browser socket, a broadcast to all sockets, a WhatsApp call-control API
request, or an error log. -/
inductive Act where
  | emitBrowser (ev : String)
  | emitAll (ev : String)
  | apiCall (action : String)
  | logErr (msg : String)
deriving DecidableEq

/-- Outcomes of the external calls made during one bridge attempt:
whether some awaited engine step in the try block rejects (after both
peer connections have been constructed), and the Boolean results of the
pre_accept and accept call-control requests. -/
structure BridgeEnv where
  engineThrow : Bool
  preAcceptOk : Bool
  acceptOk : Bool
deriving DecidableEq

/-! ## The bridge (initiateWebRTCBridge, server.js lines 545-792) -/

/-- The accept callback scheduled after a successful pre_accept
(server.js lines 764-772): the browser timer-start signal is emitted only
when the accept request succeeded and a browser socket is still stored;
otherwise only an error is logged.  The session state is not modified in
either case. -/
def acceptStep (acceptOk : Bool) (s : Srv) : Srv × List Act :=
  if acceptOk && s.browserSocket.isSome then
    (s, [Act.emitBrowser "start-browser-timer"])
  else
    (s, [Act.logErr "Accept failed"])

/-- initiateWebRTCBridge (server.js lines 545-792).  The call-in-progress
guard (551) and the missing-data guard (558) return without touching the
state; otherwise the flag is set (568), both peer connections are created
(581, 631), and, unless an engine step rejects (catch at 786, which only
resets the flag), the browser answer is emitted (743) and pre_accept is
issued (760).  On pre_accept success the accept request follows (765) and
acceptStep decides the timer signal; on pre_accept failure the flag is
reset (776) and nothing is sent to the browser.  The five-second deferred
clearing of the stored offers (782-785) happens outside this control flow
and is not modelled; no claim depends on it. -/
def initiateWebRTCBridge (env : BridgeEnv) (s : Srv) : Srv × List Act :=
  if s.callInProgress then (s, [])
  else if truthyOpt s.browserOfferSdp = false ∨ truthyOpt s.whatsappOfferSdp = false
      ∨ s.browserSocket = none then (s, [])
  else
    let s1 : Srv := { s with callInProgress := true, browserPcOpen := true, whatsappPcOpen := true }
    if env.engineThrow then
      ({ s1 with callInProgress := false }, [Act.logErr "Error in WebRTC bridge"])
    else if env.preAcceptOk then
      let r := acceptStep env.acceptOk s1
      (r.1, [Act.emitBrowser "browser-answer", Act.apiCall "pre_accept", Act.apiCall "accept"] ++ r.2)
    else
      ({ s1 with callInProgress := false },
       [Act.emitBrowser "browser-answer", Act.apiCall "pre_accept", Act.logErr "Pre-accept failed"])

/-! ## Browser-socket handlers (server.js lines 46-308) -/

/-- browser-offer handler (server.js lines 52-69): store the offer and
the socket, adopt the supplied callId when it is truthy, then attempt the
bridge. -/
def handleBrowserOffer (env : BridgeEnv) (sdp : String) (callId : Option String)
    (sockId : Nat) (s : Srv) : Srv × List Act :=
  let s1 := { s with browserOfferSdp := some sdp, browserSocket := some sockId }
  let s2 := if truthyOpt callId then { s1 with currentCallId := callId } else s1
  initiateWebRTCBridge env s2

/-- terminate-call handler (server.js lines 132-143): issue the terminate
call-control request and reset the in-progress flag.  The peer-connection
handles are not closed. -/
def handleTerminateCall (s : Srv) : Srv × List Act :=
  ({ s with callInProgress := false }, [Act.apiCall "terminate"])

/-- reject-call handler (server.js lines 92-102): the handler awaits
rejectCall(callId), but no function named rejectCall is defined anywhere
in server.js, so the await raises a ReferenceError and the flag reset on
line 100 is never reached; the handler leaves the state unchanged. -/
def handleRejectCall (s : Srv) : Srv × List Act :=
  (s, [Act.logErr "ReferenceError: rejectCall is not defined"])

/-- disconnect handler (server.js lines 146-154): reset the in-progress
flag only when the disconnecting socket is the stored browser socket.
Neither peer connection is closed and the stored socket is not cleared. -/
def handleDisconnect (sockId : Nat) (s : Srv) : Srv × List Act :=
  if s.browserSocket = some sockId then ({ s with callInProgress := false }, [])
  else (s, [])

/-! ## Webhook POST endpoint (server.js lines 331-524) -/

/-- connect branch of the call-events webhook (server.js lines 354-370):
the callId is stored (355, before any duplicate check), the provider
offer is stored (358), and the bridge is attempted; when a call is
already in progress the bridge guard returns immediately. -/
def handleWebhookConnect (env : BridgeEnv) (cid : String) (sdp : Option String)
    (s : Srv) : Srv × List Act :=
  initiateWebRTCBridge env { s with currentCallId := some cid, whatsappOfferSdp := sdp }

/-- terminate branch of the call-events webhook (server.js lines
372-386): the callId is stored (355), call-ended is broadcast and the
in-progress flag is reset.  The peer-connection handles are not
closed. -/
def handleWebhookTerminate (cid : String) (s : Srv) : Srv × List Act :=
  ({ s with currentCallId := some cid, callInProgress := false }, [Act.emitAll "call-ended"])

/-- Request bodies of the call-events webhook: a call event (id, event
name, optional session SDP), a call_permissions update, a message status,
an interactive call-permission reply, any other message, an unrecognized
payload, and a body whose processing throws (caught at line 520). -/
inductive WebhookBody where
  | callEvent (cid : String) (ev : String) (sdp : Option String)
  | permissionUpdate (waId : String) (status : String)
  | messageStatus (mid : String) (status : String)
  | permissionReply (fromId : String) (response : String)
  | otherMessage (fromId : String)
  | unrecognized
  | raising
deriving DecidableEq

/-- The POST /call-events handler (server.js lines 331-524), returning
the HTTP status code together with the state and actions.  Invalid or
incomplete call events are acknowledged early (349-352); valid call
events store the callId (355) and dispatch on the event name; permission
updates, message statuses and permission replies broadcast notifications
(the deferred auto-call with its retry in the granted permission-reply
branch, lines 474-510, is abstracted to the single connect request it
issues); every path, including the catch block (520-523), answers 200. -/
def callEventsPost (env : BridgeEnv) (b : WebhookBody) (s : Srv) : Nat × Srv × List Act :=
  match b with
  | .callEvent cid ev sdp =>
    if cid = "" ∨ ev = "" then (200, s, [])
    else if ev = "connect" then
      let r := handleWebhookConnect env cid sdp s
      (200, r.1, r.2)
    else if ev = "terminate" then
      let r := handleWebhookTerminate cid s
      (200, r.1, r.2)
    else (200, { s with currentCallId := some cid }, [])
  | .permissionUpdate _ _ =>
    (200, s, [Act.emitAll "call-permission-update"] ++
      (if s.browserSocket.isSome then [Act.emitBrowser "call-permission-update"] else []))
  | .messageStatus _ st =>
    (200, s, if st = "delivered" ∨ st = "read" then [Act.emitAll "message-status-update"] else [])
  | .permissionReply _ resp =>
    let granted := resp = "accept"
    (200, s, [Act.emitAll "call-permission-update"] ++
      (if s.browserSocket.isSome then
        [Act.emitBrowser "call-permission-update"] ++
          (if granted then [Act.emitBrowser "call-status", Act.apiCall "connect"] else [])
       else []))
  | .otherMessage _ => (200, s, [])
  | .unrecognized => (200, s, [])
  | .raising => (200, s, [Act.logErr "Error processing call-events webhook"])

/-! ## Permission gate (server.js lines 157-250 and 1131-1243) -/

/-- Permission status strings returned by checkCallPermission. -/
inductive PermStatusK where
  | granted
  | denied
  | unknownStatus
  | errorStatus
deriving DecidableEq

/-- Result of checkCallPermission, mirroring the object it returns. -/
structure PermResult where
  hasPermission : Bool
  status : PermStatusK
deriving DecidableEq

/-- Outcomes of the probe connect request inside checkCallPermission:
the probe call is accepted (with an optional call id to terminate), it is
rejected with permission error code 138006, it fails with some other
error, the response is present but not successful, or the function throws
before the probe is sent (caught either by its own outer catch or by the
smart-call handler, both of which classify the result as an error with no
permission). -/
inductive ProbeOutcome where
  | success (cid : Option String)
  | deniedCode138006
  | otherFailure
  | unexpectedResponse
  | thrown
deriving DecidableEq

/-- checkCallPermission (server.js lines 1131-1243): a probe connect
request is issued; only an accepted probe yields hasPermission, and the
accepted probe call is terminated again when a call id was returned.
A 138006 rejection maps to denied, any other error to error, and an
unsuccessful response to unknown — all with hasPermission false. -/
def checkCallPermission : ProbeOutcome → PermResult × List Act
  | .success cid =>
    (⟨true, .granted⟩, [Act.apiCall "connect_probe"] ++
      (if cid.isSome then [Act.apiCall "terminate"] else []))
  | .deniedCode138006 => (⟨false, .denied⟩, [Act.apiCall "connect_probe"])
  | .otherFailure => (⟨false, .errorStatus⟩, [Act.apiCall "connect_probe"])
  | .unexpectedResponse => (⟨false, .unknownStatus⟩, [Act.apiCall "connect_probe"])
  | .thrown => (⟨false, .errorStatus⟩, [])

/-- Result of initiateDirectCall (server.js lines 880-1025). -/
structure CallResult where
  success : Bool
  errCode : Option Nat
  cid : Option String
deriving DecidableEq

/-- Result of sendCallPermissionRequest (server.js lines 1249-1311). -/
structure PermReqOutcome where
  success : Bool
deriving DecidableEq

/-- smart-call handler (server.js lines 157-250), after the permission
check has produced its result.  The socket is stored (166); with
permission the outbound connect request is placed and its result is
reported (with the 138006 failure falling back to a permission request);
without permission the handler emits permission-needed, sends a
permission request and reports its outcome — no placing connect request
is issued on that path. -/
def smartCallHandler (perm : PermResult) (callRes : CallResult)
    (permReq : PermReqOutcome) (sockId : Nat) (s : Srv) : Srv × List Act :=
  let s1 := { s with browserSocket := some sockId }
  if perm.hasPermission then
    if callRes.success then
      ({ s1 with currentCallId := callRes.cid },
       [Act.emitBrowser "call-status", Act.apiCall "connect", Act.emitBrowser "call-initiated"])
    else if callRes.errCode = some 138006 then
      (s1, [Act.emitBrowser "call-status", Act.apiCall "connect", Act.emitBrowser "call-failed",
        Act.emitBrowser "permission-needed", Act.apiCall "permission_request"] ++
        (if permReq.success then [Act.emitBrowser "permission-request-sent"]
         else [Act.emitBrowser "permission-request-failed"]))
    else
      (s1, [Act.emitBrowser "call-status", Act.apiCall "connect", Act.emitBrowser "call-failed"])
  else
    (s1, [Act.emitBrowser "permission-needed", Act.apiCall "permission_request"] ++
      (if permReq.success then [Act.emitBrowser "permission-request-sent"]
       else [Act.emitBrowser "permission-request-failed"]))

/-- The whole smart-call flow: the permission probe followed by the
handler acting on its classification; the probe actions and the handler
actions are concatenated. -/
def smartCallFlow (probe : ProbeOutcome) (callRes : CallResult)
    (permReq : PermReqOutcome) (sockId : Nat) (s : Srv) : Srv × List Act :=
  let p := checkCallPermission probe
  let r := smartCallHandler p.1 callRes permReq sockId s
  (r.1, p.2 ++ r.2)

/-! ## Distinguished concrete states -/

/-- The initial state of server.js: every session variable null, no call
in progress. -/
def idleState : Srv :=
  { browserPcOpen := false, whatsappPcOpen := false, browserOfferSdp := none,
    whatsappOfferSdp := none, browserSocket := none, currentCallId := none,
    callInProgress := false }

/-- A state in which both offers and the browser socket are present but
no bridge has started yet. -/
def readyState : Srv :=
  { browserPcOpen := false, whatsappPcOpen := false, browserOfferSdp := some "bsdp",
    whatsappOfferSdp := some "wsdp", browserSocket := some 1,
    currentCallId := some "call1", callInProgress := false }

/-- A state in the middle of a bridged call: both peer connections open,
call in progress. -/
def bridgedState : Srv :=
  { browserPcOpen := true, whatsappPcOpen := true, browserOfferSdp := some "bsdp",
    whatsappOfferSdp := some "wsdp", browserSocket := some 1,
    currentCallId := some "call1", callInProgress := true }

/-! ## Terminal events (claim C1) -/

/-- The terminal event paths of the server: browser terminate-call,
webhook call.terminate, browser-channel disconnect, browser reject-call,
and a bridge attempt whose engine step throws. -/
inductive TermEvent where
  | termCall
  | whTerm (cid : String)
  | disc (sockId : Nat)
  | rejCall
  | bridgeErr (preOk acceptOk : Bool)
deriving DecidableEq

/-- Dispatch a terminal event to the corresponding handler. -/
def applyTerm : TermEvent → Srv → Srv × List Act
  | .termCall, s => handleTerminateCall s
  | .whTerm cid, s => handleWebhookTerminate cid s
  | .disc sid, s => handleDisconnect sid s
  | .rejCall, s => handleRejectCall s
  | .bridgeErr p a, s => initiateWebRTCBridge ⟨true, p, a⟩ s

/-- Applicability of a terminal event: the disconnect path resets the
flag only for the stored browser socket; the bridge-error path requires a
bridge attempt to actually start; the reject path is excluded because its
handler throws before reaching the reset (rejectCall is undefined). -/
def termOk : TermEvent → Srv → Bool
  | .termCall, _ => true
  | .whTerm _, _ => true
  | .disc sid, s => s.browserSocket == some sid
  | .rejCall, _ => false
  | .bridgeErr _ _, s =>
    !s.callInProgress && truthyOpt s.browserOfferSdp && truthyOpt s.whatsappOfferSdp
      && s.browserSocket.isSome

/-- Claim C1 (counterexample): after the browser terminate-call handler
runs on a bridged call, the in-progress flag is reset but both leg
handles are still open, refuting the claim that after any terminal event
no leg handle remains open. -/
theorem terminal_leaves_legs_open_counterexample :
    (handleTerminateCall bridgedState).1.callInProgress = false ∧
      (handleTerminateCall bridgedState).1.browserPcOpen = true ∧
      (handleTerminateCall bridgedState).1.whatsappPcOpen = true := by
  decide

/-- Claim C1 (amended): the terminate-call, webhook-terminate, matching
browser-disconnect and bridge-error paths all reset the in-progress flag
to false, but none of them closes a leg handle: every open leg handle
remains open afterwards.  The reject-call path is excluded because
rejectCall is undefined in server.js, so that handler throws and leaves
the state entirely unchanged. -/
theorem terminal_resets_flag_keeps_legs (e : TermEvent) (s : Srv)
    (happ : termOk e s = true) :
    (applyTerm e s).1.callInProgress = false ∧
      (s.browserPcOpen = true → (applyTerm e s).1.browserPcOpen = true) ∧
      (s.whatsappPcOpen = true → (applyTerm e s).1.whatsappPcOpen = true) ∧
      (applyTerm TermEvent.rejCall s).1 = s := by
  refine ⟨?_, ?_, ?_, rfl⟩ <;>
  · cases e with
    | termCall => simp [applyTerm, handleTerminateCall]
    | whTerm cid => simp [applyTerm, handleWebhookTerminate]
    | disc sid =>
      have h : s.browserSocket = some sid := by
        simpa [termOk] using happ
      simp [applyTerm, handleDisconnect, h]
    | rejCall => simp [termOk] at happ
    | bridgeErr p a =>
      simp only [termOk, Bool.and_eq_true, Bool.not_eq_true'] at happ
      obtain ⟨⟨⟨hflag, hb⟩, hw⟩, hsk⟩ := happ
      obtain ⟨v, hv⟩ := Option.isSome_iff_exists.mp hsk
      simp [applyTerm, initiateWebRTCBridge, hflag, hb, hw, hv]

/-- Claim C1 (witness): the amended theorem applied to the browser
terminate-call event on a concrete bridged state. -/
theorem terminal_resets_flag_witness :
    termOk TermEvent.termCall bridgedState = true ∧
      (applyTerm TermEvent.termCall bridgedState).1.callInProgress = false :=
  ⟨rfl, (terminal_resets_flag_keeps_legs TermEvent.termCall bridgedState rfl).1⟩

/-! ## Duplicate connect guard (claim C2) -/

/-- Claim C2 (counterexample): a provider connect webhook arriving with a
different callId while a call is in progress overwrites both the stored
callId and the stored provider offer, refuting the claim that the session
state is left untouched. -/
theorem duplicate_connect_overwrites_counterexample :
    (handleWebhookConnect ⟨false, true, true⟩ "xyz" (some "newsdp") bridgedState).1.currentCallId
        ≠ bridgedState.currentCallId ∧
      (handleWebhookConnect ⟨false, true, true⟩ "xyz" (some "newsdp") bridgedState).1.whatsappOfferSdp
        ≠ bridgedState.whatsappOfferSdp := by
  decide

/-- Claim C2 (amended): while a call is in progress, a provider connect
webhook starts no second bridge attempt and performs no action — the
flag, both leg handles, the browser offer and the browser socket are
unchanged — but it does overwrite the stored callId and the stored
provider offer with the values of the new event. -/
theorem duplicate_connect_no_second_bridge (env : BridgeEnv) (cid : String)
    (sdp : Option String) (s : Srv) (h : s.callInProgress = true) :
    (handleWebhookConnect env cid sdp s).1 =
        { s with currentCallId := some cid, whatsappOfferSdp := sdp } ∧
      (handleWebhookConnect env cid sdp s).2 = [] := by
  simp [handleWebhookConnect, initiateWebRTCBridge, h]

/-- Claim C2 (witness): the amended theorem applied to a concrete
in-progress state and a concrete duplicate connect event. -/
theorem duplicate_connect_witness :
    bridgedState.callInProgress = true ∧
      (handleWebhookConnect ⟨false, true, true⟩ "xyz" (some "newsdp") bridgedState).2 = [] :=
  ⟨rfl,
   (duplicate_connect_no_second_bridge ⟨false, true, true⟩ "xyz" (some "newsdp") bridgedState rfl).2⟩

/-! ## Pre-accept failure (claim C3) -/

/-- A bridge environment in which the engine succeeds but the pre_accept
call-control request reports failure. -/
def preFailEnv : BridgeEnv := ⟨false, false, true⟩

/-- Claim C3 (counterexample): when pre_accept fails on a ready session,
the flag is reset and accept is never issued, but no call-failed event is
delivered to the browser channel, refuting that part of the claim. -/
theorem preaccept_failure_counterexample :
    Act.emitBrowser "call-failed" ∉ (initiateWebRTCBridge preFailEnv readyState).2 ∧
      Act.apiCall "accept" ∉ (initiateWebRTCBridge preFailEnv readyState).2 ∧
      (initiateWebRTCBridge preFailEnv readyState).1.callInProgress = false := by
  decide

/-- Claim C3 (amended): for every bridging run in which pre_accept
reports failure, the accept request is never issued and the in-progress
flag returns to false, but no call-failed event is emitted to the browser
channel — the failure is only logged. -/
theorem preaccept_failure_no_accept (env : BridgeEnv) (s : Srv)
    (hthrow : env.engineThrow = false) (hpre : env.preAcceptOk = false)
    (hflag : s.callInProgress = false)
    (hb : truthyOpt s.browserOfferSdp = true) (hw : truthyOpt s.whatsappOfferSdp = true)
    (hsk : s.browserSocket.isSome = true) :
    (initiateWebRTCBridge env s).1.callInProgress = false ∧
      Act.apiCall "accept" ∉ (initiateWebRTCBridge env s).2 ∧
      Act.emitBrowser "call-failed" ∉ (initiateWebRTCBridge env s).2 := by
  obtain ⟨v, hv⟩ := Option.isSome_iff_exists.mp hsk
  simp [initiateWebRTCBridge, hflag, hb, hw, hv, hthrow, hpre]

/-- Claim C3 (witness): the amended theorem applied to the concrete ready
state with a failing pre_accept. -/
theorem preaccept_failure_witness :
    readyState.callInProgress = false ∧
      (initiateWebRTCBridge preFailEnv readyState).1.callInProgress = false :=
  ⟨rfl,
   (preaccept_failure_no_accept preFailEnv readyState rfl rfl rfl (by decide) (by decide)
     (by decide)).1⟩

/-! ## Bridge-start preconditions (claim C4) -/

/-- Claim C4: the in-progress flag can transition from false to true only
when the browser offer is truthy, the provider offer is truthy and the
browser socket is set; whenever one of these preconditions fails, the
bridge invocation is a complete no-op — the state (including the flag and
both leg handles) is unchanged and no action is performed. -/
theorem bridge_preconditions (env : BridgeEnv) (s : Srv)
    (hflag : s.callInProgress = false) :
    ((truthyOpt s.browserOfferSdp = false ∨ truthyOpt s.whatsappOfferSdp = false ∨
        s.browserSocket = none) → initiateWebRTCBridge env s = (s, [])) ∧
      ((initiateWebRTCBridge env s).1.callInProgress = true →
        truthyOpt s.browserOfferSdp = true ∧ truthyOpt s.whatsappOfferSdp = true ∧
          s.browserSocket.isSome = true) := by
  have hno : (truthyOpt s.browserOfferSdp = false ∨ truthyOpt s.whatsappOfferSdp = false ∨
      s.browserSocket = none) → initiateWebRTCBridge env s = (s, []) := by
    intro h
    unfold initiateWebRTCBridge
    rw [hflag]
    simp only [Bool.false_eq_true, if_false]
    rw [if_pos h]
  refine ⟨hno, ?_⟩
  intro h
  cases hb : truthyOpt s.browserOfferSdp with
  | false => rw [hno (Or.inl hb)] at h; simp [hflag] at h
  | true =>
    cases hw : truthyOpt s.whatsappOfferSdp with
    | false => rw [hno (Or.inr (Or.inl hw))] at h; simp [hflag] at h
    | true =>
      cases hsb : s.browserSocket with
      | none => rw [hno (Or.inr (Or.inr hsb))] at h; simp [hflag] at h
      | some v => exact ⟨by simp, by simp, by simp [hsb]⟩

/-- Claim C4 (witness): the theorem applied to the idle state, whose
browser offer is missing: the bridge invocation is a no-op. -/
theorem bridge_preconditions_witness :
    idleState.callInProgress = false ∧
      initiateWebRTCBridge ⟨false, true, true⟩ idleState = (idleState, []) :=
  ⟨rfl, (bridge_preconditions ⟨false, true, true⟩ idleState rfl).1 (Or.inl rfl)⟩

/-! ## Order independence of offer arrival (claim C7) -/

/-- Browser offer first, then the provider connect webhook, both starting
from the idle state. -/
def afterBrowserThenWebhook (env : BridgeEnv) (bsdp : String) (bcid : Option String)
    (sockId : Nat) (wcid : String) (wsdp : Option String) : Srv × List Act :=
  let r1 := handleBrowserOffer env bsdp bcid sockId idleState
  handleWebhookConnect env wcid wsdp r1.1

/-- Provider connect webhook first, then the browser offer, both starting
from the idle state. -/
def afterWebhookThenBrowser (env : BridgeEnv) (bsdp : String) (bcid : Option String)
    (sockId : Nat) (wcid : String) (wsdp : Option String) : Srv × List Act :=
  let r1 := handleWebhookConnect env wcid wsdp idleState
  handleBrowserOffer env bsdp bcid sockId r1.1

/-- Claim C7: starting from the idle state, for both interleavings of the
browser offer and the provider connect webhook of one call (both offers
non-empty, the browser-supplied callId absent or equal to the webhook
callId, engine and pre_accept succeeding), the resulting session states
are identical and bridging has started: the flag is set and both leg
handles have been created. -/
theorem offer_order_independence (env : BridgeEnv) (bsdp wsdp wcid : String)
    (bcid : Option String) (sockId : Nat)
    (hb : bsdp ≠ "") (hw : wsdp ≠ "")
    (hcid : truthyOpt bcid = false ∨ bcid = some wcid)
    (hthrow : env.engineThrow = false) (hpre : env.preAcceptOk = true) :
    (afterBrowserThenWebhook env bsdp bcid sockId wcid (some wsdp)).1 =
        (afterWebhookThenBrowser env bsdp bcid sockId wcid (some wsdp)).1 ∧
      (afterBrowserThenWebhook env bsdp bcid sockId wcid (some wsdp)).1.callInProgress = true ∧
      (afterBrowserThenWebhook env bsdp bcid sockId wcid (some wsdp)).1.browserPcOpen = true ∧
      (afterBrowserThenWebhook env bsdp bcid sockId wcid (some wsdp)).1.whatsappPcOpen = true := by
  obtain ⟨et, po, ao⟩ := env
  simp only at hthrow hpre
  subst hthrow
  subst hpre
  have hbt : truthyOpt (some bsdp) = true := by simp [truthyOpt, hb]
  have hwt : truthyOpt (some wsdp) = true := by simp [truthyOpt, hw]
  rcases hcid with hcid | hcid
  · cases ao <;>
      simp [afterBrowserThenWebhook, afterWebhookThenBrowser, handleBrowserOffer,
        handleWebhookConnect, initiateWebRTCBridge, acceptStep, idleState, hcid, hbt, hwt,
        truthyOpt_none]
  · subst hcid
    by_cases htc : truthyOpt (some wcid) = true <;> cases ao <;>
      simp [afterBrowserThenWebhook, afterWebhookThenBrowser, handleBrowserOffer,
        handleWebhookConnect, initiateWebRTCBridge, acceptStep, idleState, htc, hbt, hwt,
        truthyOpt_none]

/-- Claim C7 (witness): the theorem applied to concrete offers and call
ids; both interleavings yield the same state. -/
theorem offer_order_independence_witness :
    ("b" : String) ≠ "" ∧
      (afterBrowserThenWebhook ⟨false, true, true⟩ "b" none 1 "c" (some "w")).1 =
        (afterWebhookThenBrowser ⟨false, true, true⟩ "b" none 1 "c" (some "w")).1 :=
  ⟨by decide,
   (offer_order_independence ⟨false, true, true⟩ "b" "w" "c" none 1 (by decide) (by decide)
     (Or.inl rfl) rfl rfl).1⟩

/-! ## Accept outcome and the browser timer (claim C8) -/

/-- Claim C8: the browser timer-start signal is emitted if and only if
the accept request succeeded and a browser socket is still stored; the
accept callback never modifies the session state, so on accept failure
only an error is logged while the flag stays set and both legs stay
open.  Moreover a full bridge run with successful engine steps and
pre_accept leaves the flag true and both legs created, and emits the
timer signal exactly when accept succeeded. -/
theorem accept_step_spec (env : BridgeEnv) (s : Srv) :
    (Act.emitBrowser "start-browser-timer" ∈ (acceptStep env.acceptOk s).2 ↔
        env.acceptOk = true ∧ s.browserSocket.isSome = true) ∧
      (acceptStep env.acceptOk s).1 = s ∧
      (Act.logErr "Accept failed" ∈ (acceptStep env.acceptOk s).2 ↔
        ¬(env.acceptOk = true ∧ s.browserSocket.isSome = true)) ∧
      (env.engineThrow = false → env.preAcceptOk = true → s.callInProgress = false →
        truthyOpt s.browserOfferSdp = true → truthyOpt s.whatsappOfferSdp = true →
        s.browserSocket.isSome = true →
        (initiateWebRTCBridge env s).1.callInProgress = true ∧
          (initiateWebRTCBridge env s).1.browserPcOpen = true ∧
          (initiateWebRTCBridge env s).1.whatsappPcOpen = true ∧
          (Act.emitBrowser "start-browser-timer" ∈ (initiateWebRTCBridge env s).2 ↔
            env.acceptOk = true)) := by
  refine ⟨?_, ?_, ?_, ?_⟩
  · cases hao : env.acceptOk <;> cases hsk : s.browserSocket.isSome <;>
      simp [acceptStep, hao, hsk]
  · cases hao : env.acceptOk <;> cases hsk : s.browserSocket.isSome <;>
      simp [acceptStep, hao, hsk]
  · cases hao : env.acceptOk <;> cases hsk : s.browserSocket.isSome <;>
      simp [acceptStep, hao, hsk]
  · intro hthrow hpre hflag hb hw hsk
    obtain ⟨v, hv⟩ := Option.isSome_iff_exists.mp hsk
    cases hao : env.acceptOk <;>
      simp [initiateWebRTCBridge, acceptStep, hflag, hb, hw, hv, hthrow, hpre, hao]

/-- Claim C8 (witness): the bridge part of the theorem applied to the
concrete ready state with every external call succeeding. -/
theorem accept_step_spec_witness :
    readyState.callInProgress = false ∧
      (initiateWebRTCBridge ⟨false, true, true⟩ readyState).1.callInProgress = true :=
  ⟨rfl,
   ((accept_step_spec ⟨false, true, true⟩ readyState).2.2.2 rfl rfl rfl (by decide) (by decide)
     (by decide)).1⟩

/-! ## Fail-closed permission gate (claim C9) -/

/-- Claim C9: for every smart-call request whose permission probe does
not report an accepted call (denied, unknown response, other error, or a
thrown check — all classified with hasPermission false), the handler
emits permission-needed, sends a permission request, and issues no
call-control connect request that places the outbound call. -/
theorem smart_call_fail_closed (probe : ProbeOutcome) (callRes : CallResult)
    (permReq : PermReqOutcome) (sockId : Nat) (s : Srv)
    (h : ∀ cid, probe ≠ ProbeOutcome.success cid) :
    (checkCallPermission probe).1.hasPermission = false ∧
      Act.emitBrowser "permission-needed" ∈ (smartCallFlow probe callRes permReq sockId s).2 ∧
      Act.apiCall "permission_request" ∈ (smartCallFlow probe callRes permReq sockId s).2 ∧
      Act.apiCall "connect" ∉ (smartCallFlow probe callRes permReq sockId s).2 := by
  obtain ⟨ps⟩ := permReq
  cases probe with
  | success cid => exact absurd rfl (h cid)
  | deniedCode138006 =>
    cases ps <;> simp [smartCallFlow, smartCallHandler, checkCallPermission]
  | otherFailure =>
    cases ps <;> simp [smartCallFlow, smartCallHandler, checkCallPermission]
  | unexpectedResponse =>
    cases ps <;> simp [smartCallFlow, smartCallHandler, checkCallPermission]
  | thrown =>
    cases ps <;> simp [smartCallFlow, smartCallHandler, checkCallPermission]

/-- Claim C9 (witness): the theorem applied to a concrete denied probe:
no placing connect request appears among the actions. -/
theorem smart_call_fail_closed_witness :
    (∀ cid, ProbeOutcome.deniedCode138006 ≠ ProbeOutcome.success cid) ∧
      Act.apiCall "connect" ∉
        (smartCallFlow ProbeOutcome.deniedCode138006 ⟨false, none, none⟩ ⟨false⟩ 1 idleState).2 :=
  ⟨fun _ hc => ProbeOutcome.noConfusion hc,
   (smart_call_fail_closed ProbeOutcome.deniedCode138006 ⟨false, none, none⟩ ⟨false⟩ 1 idleState
     (fun _ hc => ProbeOutcome.noConfusion hc)).2.2.2⟩

/-! ## Webhook endpoint totality (claim C10) -/

/-- Claim C10: the POST call-events endpoint acknowledges every request
body — well-formed call events, permission updates, message statuses,
permission replies, other messages, unrecognized payloads and bodies that
make the handler throw — with HTTP status 200. -/
theorem webhook_always_ack_200 (env : BridgeEnv) (b : WebhookBody) (s : Srv) :
    (callEventsPost env b s).1 = 200 := by
  cases b with
  | callEvent cid ev sdp =>
    simp only [callEventsPost]
    split
    · rfl
    split
    · rfl
    split
    · rfl
    · rfl
  | permissionUpdate w st => rfl
  | messageStatus mid st => rfl
  | permissionReply f resp => rfl
  | otherMessage f => rfl
  | unrecognized => rfl
  | raising => rfl

end WaBridge
